import Mathlib

/-!
Shallow embedding of the ha-optimization scheduling engine
(src/optimizer: models.py, solver.py, battery_optimizer_workflow.py,
consumption_provider.py, production_provider.py) and theorems establishing
or refuting the properties its specification states about it (C1–C10).

Modelling conventions:
* wall-clock times are minutes since an (arbitrary) epoch, `ℕ`;
  a 5-minute slot boundary is a multiple of 5, an hour start a multiple of 60;
* money and energy amounts are exact rationals `ℚ` (Python floats are modelled
  exactly; `round(x, 2)` is modelled as exact round-half-to-even at 2 decimals);
* external transcendental routines (numpy `sin`/`cos`, pandas `std`'s square
  root) are abstracted as function parameters, since their float results are
  not exactly representable;
* the MILP backend is abstracted as an oracle producing per-slot solution
  values; the constraint system it must satisfy is embedded explicitly.
-/

namespace HaOpt

/-! ## models.py -/

/-- models.py: the eight activity labels of `class Activity(Enum)`. -/
inductive Activity where
  | CHARGE
  | CHARGE_SOLAR_SURPLUS
  | CHARGE_LIMIT
  | DISCHARGE
  | DISCHARGE_FOR_HOME
  | DISCHARGE_LIMIT
  | SELF_CONSUMPTION
  | IDLE
deriving DecidableEq, Repr

/-- models.py: module-level tariff constants. -/
def natnytta : ℚ := 8/100

def skatteavdrag : ℚ := 60/100

def delivery_fee : ℚ := 40/100

def energi_skatt : ℚ := 55/100

/-- models.py: `class Elpris`, the tariff derived from a spot price. -/
structure Elpris where
  buy_price : ℚ
  sell_price : ℚ
  spot_price : ℚ
deriving DecidableEq, Repr

/-- models.py: `Elpris.__init__`:
`buy = spot + delivery_fee + energi_skatt`, `sell = spot + natnytta + skatteavdrag`. -/
def elpris (spot : ℚ) : Elpris :=
  { buy_price := spot + delivery_fee + energi_skatt
    sell_price := spot + natnytta + skatteavdrag
    spot_price := spot }

/-- Python's `round` ties-to-even on an exact rational. -/
def roundHalfEven (q : ℚ) : ℤ :=
  let f := ⌊q⌋
  let r := q - f
  if r < 1/2 then f
  else if r > 1/2 then f + 1
  else if f % 2 = 0 then f else f + 1

/-- models.py: `round(x, 2)` as used by `TimeslotItem.__post_init__`. -/
def round2 (q : ℚ) : ℚ := (roundHalfEven (100 * q) : ℚ) / 100

/-- models.py: `@dataclass class TimeslotItem` — exactly the fields the
dataclass declares (it has no EV fields). -/
structure TimeslotItem where
  start_time : ℕ
  prices : ℚ
  battery_flow_wh : ℚ
  battery_expected_soc_wh : ℚ
  battery_expected_soc_percent : ℚ
  house_consumption_wh : ℚ
  activity : Activity
  grid_flow_wh : ℚ
  amount : Option ℚ
deriving DecidableEq, Repr

/-- models.py: constructing a `TimeslotItem`; `__post_init__` rounds every
float field to 2 decimals. -/
def mkTimeslotItem (start_time : ℕ) (prices battery_flow_wh battery_expected_soc_wh
    battery_expected_soc_percent house_consumption_wh : ℚ) (activity : Activity)
    (grid_flow_wh : ℚ) (amount : Option ℚ) : TimeslotItem :=
  { start_time := start_time
    prices := round2 prices
    battery_flow_wh := round2 battery_flow_wh
    battery_expected_soc_wh := round2 battery_expected_soc_wh
    battery_expected_soc_percent := round2 battery_expected_soc_percent
    house_consumption_wh := round2 house_consumption_wh
    activity := activity
    grid_flow_wh := round2 grid_flow_wh
    amount := amount.map round2 }

/-! ## Claim C1: the field sets involved in constructing a `TimeslotItem`.

models.py declares the dataclass fields; solver.py's `_create_schedule`
(lines 391–403) calls `TimeslotItem(...)` with a keyword for each listed
name.  A Python dataclass call succeeds only if every keyword names a
declared field. -/

/-- The fields declared by `@dataclass class TimeslotItem` in models.py. -/
def timeslot_item_fields : List String :=
  ["start_time", "prices", "battery_flow_wh", "battery_expected_soc_wh",
   "battery_expected_soc_percent", "house_consumption_wh", "activity",
   "grid_flow_wh", "amount"]

/-- The keyword arguments of the `TimeslotItem(...)` call in
`Solver._create_schedule` (solver.py lines 391–403). -/
def solver_timeslot_item_kwargs : List String :=
  ["start_time", "prices", "battery_flow_wh", "battery_expected_soc_wh",
   "battery_expected_soc_percent", "house_consumption_wh", "activity",
   "amount", "grid_flow_wh", "ev_energy_wh", "ev_soc_percent"]

/-- A dataclass constructor call succeeds iff every keyword argument names a
declared field (otherwise Python raises `TypeError`). -/
def dataclassCallAccepted (fields kwargs : List String) : Prop :=
  ∀ k ∈ kwargs, k ∈ fields

instance (fields kwargs : List String) :
    Decidable (dataclassCallAccepted fields kwargs) := by
  unfold dataclassCallAccepted; infer_instance

/-! ## Claim C2: the activity classifier of `Solver._create_schedule`
(solver.py lines 391–441).

The constructed item starts with `activity=Activity.CHARGE_LIMIT` and the
branch chain afterwards overwrites it; the composite is a pure function of
`(battery_flow, grid_flow, need)`. -/

/-- solver.py lines 398–441: the activity assigned to a slot, as a function of
the slot's signed battery flow, signed grid flow and house need (all Wh).
The final `else` with `grid_flow == 0` leaves the constructor default
`Activity.CHARGE_LIMIT` in place. -/
def classify (battery_flow grid_flow need : ℚ) : Activity :=
  if battery_flow > 1 then
    if battery_flow ≤ -need - 10 then Activity.CHARGE_LIMIT
    else if battery_flow < -need + 5 then Activity.CHARGE_SOLAR_SURPLUS
    else Activity.CHARGE
  else if battery_flow < -1 then
    if -battery_flow ≤ need - 10 then Activity.DISCHARGE_LIMIT
    else if -battery_flow ≤ need + 5 then Activity.DISCHARGE_FOR_HOME
    else Activity.DISCHARGE
  else
    if grid_flow > 0 then Activity.CHARGE_SOLAR_SURPLUS
    else if grid_flow < 0 then Activity.DISCHARGE_FOR_HOME
    else Activity.CHARGE_LIMIT

/-! ## 5-minute slot generation

production_provider.py `get_production` (and the consumption providers)
generate the time-slot list with `t = start; while t <= end: append(t); t += 5min`.
The loop below is rendered with its iteration count `(end - start) / 5 + 1`
made explicit, so the definition is structurally recursive and kernel-evaluable. -/

/-- `n` successive 5-minute slot starts beginning at `start`. -/
def timeSlotsAux (start : ℕ) : ℕ → List ℕ
  | 0 => []
  | n + 1 => start :: timeSlotsAux (start + 5) n

/-- production_provider.py lines 27–32: all 5-minute slot starts `t` with
`start ≤ t ≤ fin` (empty when `start > fin`). -/
def timeSlots (start fin : ℕ) : List ℕ :=
  if start ≤ fin then timeSlotsAux start ((fin - start) / 5 + 1) else []

/-! ## battery_optimizer_workflow.py: price extension (claim C5) -/

/-- battery_optimizer_workflow.py `_extend_prices_with_mean`:
`mean(spot_prices(P))`, computed over the entries of `P`. -/
def meanSpot (prices : List (ℕ × Elpris)) : ℚ :=
  (prices.map (fun e => e.2.spot_price)).sum / prices.length

/-- `max(prices.keys())` (Python `max` of the key view; keys are `ℕ` minutes). -/
def latestTime (prices : List (ℕ × Elpris)) : ℕ :=
  (prices.map Prod.fst).foldl max 0

/-- The iteration times of the fill loop in `_extend_prices_with_mean`:
`current = latest + 60; while current <= latest + 24*60: ...; current += 60`
visits exactly `latest + 60*1, …, latest + 60*24`. -/
def extendTimes (latest : ℕ) : List ℕ :=
  (List.range 24).map (fun k => latest + 60 * (k + 1))

/-- One iteration of the fill loop: `if current_time not in prices:
prices[current_time] = mean_price` (dict insertion appends a new key). -/
def fillPrice (mp : Elpris) (acc : List (ℕ × Elpris)) (t : ℕ) : List (ℕ × Elpris) :=
  if (List.lookup t acc).isSome then acc else acc ++ [(t, mp)]

/-- battery_optimizer_workflow.py lines 211–237: `_extend_prices_with_mean`.
Returns the price map unchanged when empty (the `if not prices: return` guard),
otherwise fills the 24 hourly steps after the latest key with
`Elpris(mean_spot_price)` wherever no entry exists. -/
def extend_prices_with_mean (prices : List (ℕ × Elpris)) : List (ℕ × Elpris) :=
  match prices with
  | [] => prices
  | _ :: _ =>
    let mp := elpris (meanSpot prices)
    (extendTimes (latestTime prices)).foldl (fillPrice mp) prices

/-! ## battery_optimizer_workflow.py: the self-consumption schedule (claim C4) -/

/-- The slot list of `_create_self_consumption_schedule`:
`current = start; while current < start + 24h: ...; current += 5min` —
exactly `24*60/5 = 288` iterations. -/
def selfConsumptionSlots (start : ℕ) : List ℕ :=
  timeSlotsAux start (24 * 60 / 5)

/-- battery_optimizer_workflow.py lines 167–209: `_create_self_consumption_schedule`.
`consumption`/`production` model `consumption.get(t, 0.0)` / `production.get(t, 0.0)`
as total functions. Every item has zero battery flow, the (unchanged) initial
energy as SOC, activity `SELF_CONSUMPTION` and grid flow `production - consumption`. -/
def create_self_consumption_schedule (start : ℕ) (consumption production : ℕ → ℚ)
    (initial_energy storage_size_wh : ℚ) : List (ℕ × TimeslotItem) :=
  (selfConsumptionSlots start).map (fun t =>
    (t, mkTimeslotItem t 0 0 initial_energy (initial_energy / storage_size_wh * 100)
        (consumption t) Activity.SELF_CONSUMPTION
        (production t - consumption t) (some 0)))

/-! ## solver.py: the dispatch MILP -/

/-- solver.py: `Solver.toWh` — convert a power reading (W) held for a
`timeslot_length`-minute slot into Wh. -/
def toWh (timeslot_length : ℕ) (value : ℚ) : ℚ :=
  value * ((timeslot_length : ℚ) / 60)

/-- solver.py `get_closest_price_timeslot`: truncate a slot time to the start
of its clock hour (`time.replace(minute=0, second=0, microsecond=0)`). -/
def get_closest_price_timeslot (time : ℕ) : ℕ :=
  time - time % 60

/-- battery_config.py `BatteryConfig`: the fields the solver reads.
`ev_max_capacity_wh`/`ev_max_charge_speed_w` are optional; `has_ev_charging`
holds iff both are present. -/
structure BatteryConfig where
  storage_size_wh : ℚ
  initial_energy : ℚ
  max_charge_speed_w : ℚ
  max_discharge_speed_w : ℚ
  ev_max_capacity_wh : Option ℚ
  ev_max_charge_speed_w : Option ℚ
  ev_max_charge_price_kr_per_kwh : ℚ
  fuse_capacity_w : ℚ

/-- battery_config.py `has_ev_charging`. -/
def BatteryConfig.has_ev_charging (c : BatteryConfig) : Prop :=
  c.ev_max_capacity_wh.isSome ∧ c.ev_max_charge_speed_w.isSome

/-- The upper bound of the `ev_energy_wh` variables in `_setup_variables`:
`ev_max_capacity_wh if has_ev_charging() else 0`. -/
def BatteryConfig.evEnergyBound (c : BatteryConfig) : ℚ :=
  match c.ev_max_capacity_wh, c.ev_max_charge_speed_w with
  | some cap, some _ => cap
  | _, _ => 0

/-- The upper bound of the `ev_charge_w` variables in `_setup_variables`:
`ev_max_charge_speed_w if has_ev_charging() else 0`. -/
def BatteryConfig.evChargeBound (c : BatteryConfig) : ℚ :=
  match c.ev_max_capacity_wh, c.ev_max_charge_speed_w with
  | some _, some speed => speed
  | _, _ => 0

/-- One slot's worth of decision-variable values, named after the variable
dictionaries of `Solver._setup_variables`. -/
structure SlotSolution where
  grid_import_wh : ℚ
  grid_export_wh : ℚ
  grid_flow_direction : ℚ
  battery_charge_wh : ℚ
  battery_discharge_wh : ℚ
  battery_energy_wh : ℚ
  is_charging_or_discharging : ℚ
  soc_deficit_wh : ℚ
  ev_energy_wh : ℚ
  ev_charge_w : ℚ

/-- The variable bounds declared in `Solver._setup_variables`.  `BoolVar`
declares a 0/1 integer variable, captured as membership in `{0, 1}`. -/
def slotVarBounds (tlen : ℕ) (c : BatteryConfig) (s : SlotSolution) : Prop :=
  0 ≤ s.grid_import_wh ∧ s.grid_import_wh ≤ toWh tlen c.fuse_capacity_w ∧
  0 ≤ s.grid_export_wh ∧ s.grid_export_wh ≤ toWh tlen c.fuse_capacity_w ∧
  (s.grid_flow_direction = 0 ∨ s.grid_flow_direction = 1) ∧
  0 ≤ s.battery_charge_wh ∧ s.battery_charge_wh ≤ c.max_charge_speed_w ∧
  0 ≤ s.battery_discharge_wh ∧ s.battery_discharge_wh ≤ c.max_discharge_speed_w ∧
  c.storage_size_wh * (7/100) ≤ s.battery_energy_wh ∧
  s.battery_energy_wh ≤ c.storage_size_wh ∧
  (s.is_charging_or_discharging = 0 ∨ s.is_charging_or_discharging = 1) ∧
  0 ≤ s.soc_deficit_wh ∧
  0 ≤ s.ev_energy_wh ∧ s.ev_energy_wh ≤ c.evEnergyBound ∧
  0 ≤ s.ev_charge_w ∧ s.ev_charge_w ≤ c.evChargeBound

/-- The per-slot constraints added by `Solver._setup_constraints`
(solver.py lines 120–195), for a slot with production `prod` W, consumption
`cons` W and previous battery energy `prevE` (the constructor's
`initial_energy` for the first slot). -/
def slotConstraints (tlen : ℕ) (c : BatteryConfig) (prod cons prevE : ℚ)
    (s : SlotSolution) : Prop :=
  toWh tlen prod + s.grid_import_wh + s.battery_discharge_wh
    = toWh tlen cons + s.battery_charge_wh + toWh tlen s.ev_charge_w
      + s.grid_export_wh ∧
  s.battery_energy_wh
    = prevE + (95/100) * s.battery_charge_wh - s.battery_discharge_wh ∧
  s.battery_charge_wh
    ≤ toWh tlen c.max_charge_speed_w * s.is_charging_or_discharging ∧
  s.battery_discharge_wh
    ≤ toWh tlen c.max_discharge_speed_w * (1 - s.is_charging_or_discharging) ∧
  s.soc_deficit_wh ≥ c.storage_size_wh * (3/10) - s.battery_energy_wh ∧
  s.soc_deficit_wh ≥ 0 ∧
  s.grid_import_wh ≤ toWh tlen c.fuse_capacity_w * (1 - s.grid_flow_direction) ∧
  s.grid_export_wh ≤ toWh tlen c.fuse_capacity_w * s.grid_flow_direction

/-- A whole assignment satisfies the solver's program: each slot (given with
its production and consumption in W) satisfies its bounds and constraints,
with the battery-state recurrence threaded through `previous_key` exactly as
in `_setup_constraints`. -/
def feasibleFrom (tlen : ℕ) (c : BatteryConfig) :
    ℚ → List (ℚ × ℚ × SlotSolution) → Prop
  | _, [] => True
  | prevE, (prod, cons, s) :: rest =>
    slotVarBounds tlen c s ∧ slotConstraints tlen c prod cons prevE s ∧
    feasibleFrom tlen c s.battery_energy_wh rest

/-! ### solver.py `_setup_ev_charging_objectives` (claim C7)

The routine adds a single deficit variable at a target slot, with a lower
bound `target_soc_wh - ev_energy` and an objective coefficient.  It is
determined by the timeslot list, the ready time and the EV capacity; we
return `(target slot, target_soc_wh, objective coefficient)`, or `none`
when nothing is added. -/

/-- solver.py lines 276–355: the deficit target slot, target energy (Wh) and
objective penalty coefficient chosen by `_setup_ev_charging_objectives`.
Times are minutes; `total_seconds()/3600` hours become `minutes/60`. -/
def setup_ev_charging_objectives (timeslots : List ℕ) (ev_ready_time : ℕ)
    (ev_max_capacity_wh : ℚ) : Option (ℕ × ℚ × ℚ) :=
  match timeslots.head?, timeslots.getLast? with
  | some first_timeslot, some last_timeslot =>
    if ev_ready_time ≤ last_timeslot then
      let target_soc_wh := (9/10) * ev_max_capacity_wh
      let target_timeslot :=
        (timeslots.find? (fun t => ev_ready_time ≤ t)).getD last_timeslot
      some (target_timeslot, target_soc_wh, 10)
    else
      let total_time_to_target := ((ev_ready_time - first_timeslot : ℕ) : ℚ) / 60
      let elapsed_time := ((last_timeslot - first_timeslot : ℕ) : ℚ) / 60
      if 0 < total_time_to_target then
        let progress_percentage := elapsed_time / total_time_to_target
        let target_soc_percent := min 90 (progress_percentage * 90)
        some (last_timeslot, target_soc_percent / 100 * ev_max_capacity_wh, 10)
      else none
  | _, _ => none

/-! ### solver.py `_create_schedule` and `create_schedule` (claims C3, C10) -/

/-- The per-slot solution values of a successful solve, as read back via
`solution_value()` in `_create_schedule`; produced by the LP backend, which
the embedding treats as an oracle. -/
structure LPSolution where
  battery_charge_wh : ℕ → ℚ
  battery_discharge_wh : ℕ → ℚ
  grid_import_wh : ℕ → ℚ
  grid_export_wh : ℕ → ℚ
  battery_energy_wh : ℕ → ℚ
  ev_energy_wh : ℕ → ℚ

/-- solver.py lines 357–443: the `TimeslotItem` built for slot `t` by
`_create_schedule` (with the activity branch chain applied to the constructed
item; the EV values are computed but the dataclass has no fields for them —
claim C1 records that mismatch separately). -/
def schedule_item (tlen : ℕ) (consumption production : ℕ → ℚ)
    (prices : ℕ → Elpris) (sol : LPSolution) (c : BatteryConfig) (t : ℕ) :
    TimeslotItem :=
  let need := toWh tlen (consumption t - production t)
  let battery_flow := sol.battery_charge_wh t - sol.battery_discharge_wh t
  let grid_flow := sol.grid_import_wh t - sol.grid_export_wh t
  let pris := (prices (get_closest_price_timeslot t)).spot_price
  let expected_soc := sol.battery_energy_wh t
  mkTimeslotItem t pris battery_flow expected_soc
    (expected_soc / c.storage_size_wh * 100) need
    (classify battery_flow grid_flow need) grid_flow
    (some (battery_flow * (60 / (tlen : ℚ))))

/-- solver.py lines 445–493: `Solver.create_schedule`.  After the input
validation (`time_slots == 0 or len(consumption_w) != time_slots → None`),
the LP is set up and solved; `solveResult` is the backend's answer (`none`
for a not-optimal/not-feasible status).  On success the schedule holds one
item per production key, in production-key order. -/
def solver_create_schedule (tlen : ℕ) (production consumption : List (ℕ × ℚ))
    (prices : ℕ → Elpris) (c : BatteryConfig)
    (solveResult : Option LPSolution) : Option (List (ℕ × TimeslotItem)) :=
  if production.length = 0 ∨ consumption.length ≠ production.length then none
  else
    match solveResult with
    | none => none
    | some sol =>
      some (production.map (fun p =>
        (p.1, schedule_item tlen (fun u => (List.lookup u consumption).getD 0)
          (fun u => (List.lookup u production).getD 0) prices sol c p.1)))

/-! ## battery_optimizer_workflow.py `generate_schedule` (claims C3, C4, C5) -/

/-- battery_optimizer_workflow.py lines 31–114: `generate_schedule`.
`start` is the current 5-minute slot (`get_current_timeslot`), `prices` the
fetched price map, `consumption`/`production` the forecasters as total
functions over slot times, `solveResult` the LP backend oracle.
Returns the schedule the workflow stores, or `none` when it exits without one. -/
def generate_schedule (start : ℕ) (prices : List (ℕ × Elpris))
    (consumption production : ℕ → ℚ) (c : BatteryConfig)
    (solveResult : Option LPSolution) : Option (List (ℕ × TimeslotItem)) :=
  if prices.length = 0 then
    if start % 1440 / 60 < 17 then none
    else some (create_self_consumption_schedule start consumption production
      c.initial_energy c.storage_size_wh)
  else
    let prices2 :=
      if prices.length < 24 - 17 then extend_prices_with_mean prices else prices
    let end_date := latestTime prices2
    let slots := timeSlots start end_date
    let consumptionMap := slots.map (fun t => (t, consumption t))
    let productionMap := slots.map (fun t => (t, production t))
    solver_create_schedule 5 productionMap consumptionMap
      (fun h => (List.lookup h prices2).getD (elpris 0)) c solveResult

/-! ## consumption_provider.py: the load forecaster (claims C8, C9)

`add_features_for_prediction` builds, on a DataFrame whose `value` column is
the history buffer followed by a `0.0` placeholder for the slot being
predicted, the columns listed in `prepare_features_for_prediction`.  numpy's
`sin`/`cos` (of `2π·minutes_of_day/1440`), the calendar day-of-year and the
square root inside pandas' sample std produce floats with no exact rational
form, so they are abstracted as oracles. -/

/-- The names of the feature columns selected by
`prepare_features_for_prediction` (consumption_provider.py lines 33–46),
together with the extra tags the spec speaks about, so the two column lists
can be compared. -/
inductive FeatureColumn where
  | day_of_year
  | minutes_of_day
  | minutes_sin
  | minutes_cos
  | consumption_lag (n : ℕ)
  | consumption_rolling_mean (w : ℕ)
  | consumption_rolling_std (w : ℕ)
  | day_of_week_sin
  | day_of_week_cos
  | hour_sin
  | hour_cos
deriving DecidableEq, Repr

/-- consumption_provider.py lines 33–46: the exact feature columns handed to
the regressor, in order. -/
def feature_columns : List FeatureColumn :=
  [FeatureColumn.day_of_year, FeatureColumn.minutes_of_day,
   FeatureColumn.minutes_sin, FeatureColumn.minutes_cos,
   FeatureColumn.consumption_lag 1, FeatureColumn.consumption_lag 2,
   FeatureColumn.consumption_rolling_mean 6,
   FeatureColumn.consumption_rolling_std 6]

/-- Modelled from the spec: the feature row §4.D step 1 describes — cyclic
time features (minute-of-day sin/cos, day-of-year, day-of-week sin/cos,
hour sin/cos), five lags `L1..L5` and rolling mean/std of the last 6 buffered
values.  Defined only to be compared against `feature_columns`. -/
def spec_feature_columns : List FeatureColumn :=
  [FeatureColumn.minutes_sin, FeatureColumn.minutes_cos,
   FeatureColumn.day_of_year,
   FeatureColumn.day_of_week_sin, FeatureColumn.day_of_week_cos,
   FeatureColumn.hour_sin, FeatureColumn.hour_cos,
   FeatureColumn.consumption_lag 1, FeatureColumn.consumption_lag 2,
   FeatureColumn.consumption_lag 3, FeatureColumn.consumption_lag 4,
   FeatureColumn.consumption_lag 5,
   FeatureColumn.consumption_rolling_mean 6,
   FeatureColumn.consumption_rolling_std 6]

/-- Oracles for the float routines feeding the time features:
`day_of_year(t)`, and `sin`/`cos` of `2π·m/1440` for `m` minutes-of-day. -/
structure TimeFeatureOracle where
  day_of_year : ℕ → ℚ
  minutes_sin : ℕ → ℚ
  minutes_cos : ℕ → ℚ

/-- The numeric feature row (one value per entry of `feature_columns`). -/
structure ConsumptionFeatures where
  day_of_year : ℚ
  minutes_of_day : ℚ
  minutes_sin : ℚ
  minutes_cos : ℚ
  consumption_lag_1 : ℚ
  consumption_lag_2 : ℚ
  consumption_rolling_mean_6 : ℚ
  consumption_rolling_std_6 : ℚ
deriving DecidableEq, Repr

/-- consumption_provider.py lines 12–46 as evaluated at the DataFrame's last
row (the row of the slot being predicted): `vals` is the `value` column,
i.e. the history buffer values followed by the `0.0` placeholder.
`lag_1`/`lag_2` shift by 1/2 rows; the rolling statistics cover the 6-row
window ending at the last row (so they include the placeholder).  Any lag or
rolling cell being NaN — fewer than 6 rows — yields `none` (the caller's
`isna` check then falls back).  `sqrtF` abstracts the square root inside the
sample standard deviation. -/
def features_at_last_row (O : TimeFeatureOracle) (sqrtF : ℚ → ℚ) (t : ℕ)
    (vals : List ℚ) : Option ConsumptionFeatures :=
  if vals.length < 6 then none
  else
    let w := vals.drop (vals.length - 6)
    let mean := w.sum / 6
    some
      { day_of_year := O.day_of_year t
        minutes_of_day := ((t % 1440 : ℕ) : ℚ)
        minutes_sin := O.minutes_sin (t % 1440)
        minutes_cos := O.minutes_cos (t % 1440)
        consumption_lag_1 := vals.getD (vals.length - 2) 0
        consumption_lag_2 := vals.getD (vals.length - 3) 0
        consumption_rolling_mean_6 := mean
        consumption_rolling_std_6 :=
          sqrtF ((w.map (fun x => (x - mean) ^ 2)).sum / 5) }

/-- consumption_provider.py lines 344–354: the hour-of-day fallback used when
a feature is NaN. -/
def fallback_consumption (t : ℕ) : ℚ :=
  let hour := t % 1440 / 60
  if 6 ≤ hour ∧ hour ≤ 8 then 800
  else if 17 ≤ hour ∧ hour ≤ 21 then 1200
  else if 22 ≤ hour ∨ hour ≤ 5 then 300
  else 600

/-- consumption_provider.py lines 304–322: the six-entry initial history of
`get_consumption_iterative` (oldest first).  The last two entries are
`initial_lag_2` and `initial_lag_1`; the earlier four are
`initial_rolling_mean + np.random.normal(0, initial_rolling_std)`, modelled
as `mean + std * noise k` for the `k`-th standard-normal draw `noise k`. -/
def seed_history (initial_lag_1 initial_lag_2 initial_rolling_mean
    initial_rolling_std : ℚ) (noise : ℕ → ℚ) : List ℚ :=
  [initial_rolling_mean + initial_rolling_std * noise 0,
   initial_rolling_mean + initial_rolling_std * noise 1,
   initial_rolling_mean + initial_rolling_std * noise 2,
   initial_rolling_mean + initial_rolling_std * noise 3,
   initial_lag_2, initial_lag_1]

/-- One iteration of the prediction loop (consumption_provider.py lines
327–361): build the features over `history ++ [0.0]`, fall back when they are
NaN, otherwise clamp the model's prediction to `[0, ∞)`. -/
def gci_step (O : TimeFeatureOracle) (sqrtF : ℚ → ℚ)
    (model : ConsumptionFeatures → ℚ) (history : List ℚ) (t : ℕ) : ℚ :=
  match features_at_last_row O sqrtF t (history ++ [0]) with
  | none => fallback_consumption t
  | some f => max 0 (model f)

/-- consumption_provider.py lines 363–370: append the prediction to the
history buffer and keep only the last 10 entries. -/
def trim_history (h : List ℚ) : List ℚ :=
  if 10 < h.length then h.drop (h.length - 10) else h

/-- The prediction loop of `get_consumption_iterative` over the slot list. -/
def gci_loop (O : TimeFeatureOracle) (sqrtF : ℚ → ℚ)
    (model : ConsumptionFeatures → ℚ) :
    List ℚ → List ℕ → List (ℕ × ℚ)
  | _, [] => []
  | history, t :: rest =>
    let prediction := gci_step O sqrtF model history t
    (t, prediction) ::
      gci_loop O sqrtF model (trim_history (history ++ [prediction])) rest

/-- consumption_provider.py lines 235–372: `get_consumption_iterative` with
all four initial values provided; `slots` is the generated 5-minute slot
list, `model` the loaded regressor, `noise` the sequence of standard-normal
draws `np.random.normal` produces while seeding the history. -/
def get_consumption_iterative (O : TimeFeatureOracle) (sqrtF : ℚ → ℚ)
    (model : ConsumptionFeatures → ℚ) (slots : List ℕ)
    (initial_lag_1 initial_lag_2 initial_rolling_mean initial_rolling_std : ℚ)
    (noise : ℕ → ℚ) : List (ℕ × ℚ) :=
  gci_loop O sqrtF model
    (seed_history initial_lag_1 initial_lag_2 initial_rolling_mean
      initial_rolling_std noise) slots

/-! ## Concrete fixtures used by witnesses and counterexamples -/

/-- A battery configuration with no EV charger (the shapes of the fallback
default in `BatteryConfig.default_config`, with a 10 kWh store). -/
def testConfig : BatteryConfig :=
  { storage_size_wh := 10000
    initial_energy := 5000
    max_charge_speed_w := 5000
    max_discharge_speed_w := 5000
    ev_max_capacity_wh := none
    ev_max_charge_speed_w := none
    ev_max_charge_price_kr_per_kwh := 2
    fuse_capacity_w := 11000 }

/-- An LP-backend answer assigning 0 to every variable of every slot. -/
def zeroLPSolution : LPSolution :=
  { battery_charge_wh := fun _ => 0
    battery_discharge_wh := fun _ => 0
    grid_import_wh := fun _ => 0
    grid_export_wh := fun _ => 0
    battery_energy_wh := fun _ => 0
    ev_energy_wh := fun _ => 0 }

/-- Seven contiguous hourly prices starting at minute 1020 (17:00),
so the `len(prices) < 7` extension branch is not taken. -/
def c3Prices : List (ℕ × Elpris) :=
  [(1020, elpris 1), (1080, elpris 1), (1140, elpris 1), (1200, elpris 1),
   (1260, elpris 1), (1320, elpris 1), (1380, elpris 1)]

/-- Five contiguous hourly prices (the `|P| = 5` scenario of claim C5). -/
def c5Prices : List (ℕ × Elpris) :=
  [(0, elpris 1), (60, elpris 2), (120, elpris 3), (180, elpris 4),
   (240, elpris 5)]

/-- A time-feature oracle returning 0 everywhere (the time features do not
matter to the facts proved with it). -/
def zeroTimeOracle : TimeFeatureOracle :=
  { day_of_year := fun _ => 0
    minutes_sin := fun _ => 0
    minutes_cos := fun _ => 0 }

/-- A concrete deterministic regressor: predict the rolling-mean feature. -/
def rollingMeanModel : ConsumptionFeatures → ℚ :=
  fun f => f.consumption_rolling_mean_6

/-- The concrete schedule the workflow produces on the `c3Prices` run
(start 1050, zero forecasts, the all-zero LP answer). -/
def c3Sched : List (ℕ × TimeslotItem) :=
  (generate_schedule 1050 c3Prices (fun _ => 0) (fun _ => 0) testConfig
    (some zeroLPSolution)).getD []

/-- A concrete all-idle slot solution with the battery at 5000 Wh. -/
def c6Slot : SlotSolution :=
  { grid_import_wh := 0
    grid_export_wh := 0
    grid_flow_direction := 0
    battery_charge_wh := 0
    battery_discharge_wh := 0
    battery_energy_wh := 5000
    is_charging_or_discharging := 0
    soc_deficit_wh := 0
    ev_energy_wh := 0
    ev_charge_w := 0 }

/-! # Helper lemmas -/

theorem timeSlotsAux_mem {start n t : ℕ} :
    t ∈ timeSlotsAux start n ↔ ∃ k < n, t = start + 5 * k := by
  induction n generalizing start with
  | zero => simp [timeSlotsAux]
  | succ n ih =>
    simp only [timeSlotsAux, List.mem_cons, ih]
    constructor
    · rintro (rfl | ⟨k, hk, rfl⟩)
      · exact ⟨0, Nat.succ_pos n, by omega⟩
      · exact ⟨k + 1, by omega, by omega⟩
    · rintro ⟨k, hk, rfl⟩
      cases k with
      | zero => left; omega
      | succ k => right; exact ⟨k, by omega, by omega⟩

theorem timeSlotsAux_sorted (start n : ℕ) :
    (timeSlotsAux start n).Pairwise (· < ·) := by
  induction n generalizing start with
  | zero => simp [timeSlotsAux]
  | succ n ih =>
    refine List.Pairwise.cons ?_ (ih (start + 5))
    intro t ht
    rcases timeSlotsAux_mem.1 ht with ⟨k, _, rfl⟩
    omega

theorem timeSlotsAux_length (start n : ℕ) :
    (timeSlotsAux start n).length = n := by
  induction n generalizing start with
  | zero => rfl
  | succ n ih => simp [timeSlotsAux, ih]

theorem timeSlots_mem {start fin t : ℕ} (h : start ≤ fin) :
    t ∈ timeSlots start fin ↔ ∃ k, t = start + 5 * k ∧ t ≤ fin := by
  simp only [timeSlots, if_pos h, timeSlotsAux_mem]
  constructor
  · rintro ⟨k, hk, rfl⟩
    exact ⟨k, rfl, by omega⟩
  · rintro ⟨k, rfl, hle⟩
    exact ⟨k, by omega, rfl⟩

theorem timeSlots_sorted (start fin : ℕ) :
    (timeSlots start fin).Pairwise (· < ·) := by
  unfold timeSlots
  split
  · exact timeSlotsAux_sorted _ _
  · simp

theorem lookup_append_left {α β : Type} [BEq α] {l l' : List (α × β)} {a : α} {b : β}
    (h : List.lookup a l = some b) : List.lookup a (l ++ l') = some b := by
  induction l with
  | nil => simp [List.lookup] at h
  | cons e l ih =>
    simp only [List.lookup, List.cons_append] at h ⊢
    split at h
    · exact h ▸ (by simp [List.lookup, *])
    · have := ih h
      simp [List.lookup, *]

theorem fillPrice_lookup_preserved {mp : Elpris} {acc : List (ℕ × Elpris)} {t u : ℕ}
    {p : Elpris} (h : List.lookup u acc = some p) :
    List.lookup u (fillPrice mp acc t) = some p := by
  unfold fillPrice
  split
  · exact h
  · exact lookup_append_left h

theorem foldl_fillPrice_lookup_preserved {mp : Elpris} {ts : List ℕ}
    {acc : List (ℕ × Elpris)} {u : ℕ} {p : Elpris}
    (h : List.lookup u acc = some p) :
    List.lookup u (ts.foldl (fillPrice mp) acc) = some p := by
  induction ts generalizing acc with
  | nil => exact h
  | cons t ts ih => exact ih (fillPrice_lookup_preserved h)

theorem fillPrice_entry_cases {mp : Elpris} {acc : List (ℕ × Elpris)} {t : ℕ}
    {e : ℕ × Elpris} (h : e ∈ fillPrice mp acc t) : e ∈ acc ∨ e.2 = mp := by
  unfold fillPrice at h
  split at h
  · exact Or.inl h
  · rcases List.mem_append.1 h with h1 | h1
    · exact Or.inl h1
    · right; simp at h1; simp [h1]

theorem foldl_fillPrice_entry_cases {mp : Elpris} {ts : List ℕ}
    {acc : List (ℕ × Elpris)} {e : ℕ × Elpris}
    (h : e ∈ ts.foldl (fillPrice mp) acc) : e ∈ acc ∨ e.2 = mp := by
  induction ts generalizing acc with
  | nil => exact Or.inl h
  | cons t ts ih =>
    rcases ih h with h1 | h1
    · exact fillPrice_entry_cases h1
    · exact Or.inr h1

theorem mem_of_lookup_eq_some {α β : Type} [BEq α] [LawfulBEq α]
    {l : List (α × β)} {a : α} {b : β} (h : List.lookup a l = some b) :
    (a, b) ∈ l := by
  induction l with
  | nil => simp [List.lookup] at h
  | cons e l ih =>
    simp only [List.lookup] at h
    split at h
    · rename_i heq
      have : a = e.1 := by simpa using heq
      cases h
      simp [this]
    · exact List.mem_cons_of_mem _ (ih h)

theorem lookup_eq_none_of_not_mem {α β : Type} [BEq α] [LawfulBEq α]
    {l : List (α × β)} {a : α} {b : β} (hmem : (a, b) ∈ l) :
    List.lookup a l ≠ none := by
  induction l with
  | nil => simp at hmem
  | cons e l ih =>
    rcases List.mem_cons.1 hmem with rfl | h1
    · simp [List.lookup]
    · simp only [List.lookup]
      split
      · simp
      · exact ih h1

theorem map_fst_pairing {α : Type} (l : List ℕ) (f : ℕ → α) :
    (l.map (fun t => (t, f t))).map Prod.fst = l := by
  rw [List.map_map]
  exact List.map_id l

theorem mem_of_getLast?_eq_some {l : List ℕ} {x : ℕ} (h : l.getLast? = some x) :
    x ∈ l := by
  have h1 : x ∈ l.getLast? := Option.mem_def.2 h
  rcases List.mem_getLast?_eq_getLast h1 with ⟨hne, heq⟩
  rw [heq]
  exact List.getLast_mem _

theorem sorted_find?_min {r : ℕ} {ts : List ℕ} (hs : ts.Pairwise (· ≤ ·)) {x : ℕ}
    (hf : ts.find? (fun t => r ≤ t) = some x) :
    ∀ t ∈ ts, r ≤ t → x ≤ t := by
  induction ts with
  | nil => simp at hf
  | cons a l ih =>
    by_cases hra : r ≤ a
    · rw [List.find?_cons_of_pos _ (by simpa using hra)] at hf
      have hxa : x = a := by simpa using hf.symm
      subst hxa
      intro t ht _
      rcases List.mem_cons.1 ht with rfl | h2
      · exact le_refl _
      · exact (List.pairwise_cons.1 hs).1 t h2
    · rw [List.find?_cons_of_neg _ (by simpa using hra)] at hf
      intro t ht hrt
      rcases List.mem_cons.1 ht with rfl | h2
      · exact absurd hrt hra
      · exact ih (List.pairwise_cons.1 hs).2 hf t h2 hrt

/-! # Claim theorems -/

/-- C1 (code_bug): the `TimeslotItem(...)` call in `Solver._create_schedule`
passes the keywords `ev_energy_wh` and `ev_soc_percent`, but the
`TimeslotItem` dataclass in models.py declares neither field, so the call is
rejected (Python raises `TypeError`) on every successfully solved instance —
the record cannot carry the optional EV fields the claim (and the solver's
own tests) require. -/
theorem c1_ev_fields_missing_from_dataclass :
    ¬ dataclassCallAccepted timeslot_item_fields solver_timeslot_item_kwargs ∧
    "ev_energy_wh" ∈ solver_timeslot_item_kwargs ∧
    "ev_energy_wh" ∉ timeslot_item_fields ∧
    "ev_soc_percent" ∈ solver_timeslot_item_kwargs ∧
    "ev_soc_percent" ∉ timeslot_item_fields := by
  decide

/-- C2 (counterexample): with `battery_flow = 0`, `grid_flow = 0`, `need = 0`
(`|battery_flow| ≤ 1` and grid flow neither positive nor negative) the
classifier yields `CHARGE_LIMIT` — the constructor default is left in place —
not `SELF_CONSUMPTION` as the claim states. -/
theorem c2_otherwise_not_self_consumption :
    classify 0 0 0 = Activity.CHARGE_LIMIT ∧
    Activity.CHARGE_LIMIT ≠ Activity.SELF_CONSUMPTION := by
  constructor
  · norm_num [classify]
  · decide

/-- C2 (amended): the classifier is a pure function of
`(battery_flow, grid_flow, need)` and matches the spec's decision table read
sequentially, except that the final otherwise-row (near-zero battery flow,
zero grid flow) yields `CHARGE_LIMIT` rather than `self_consumption`. -/
theorem c2_classifier_matches_table (battery_flow grid_flow need : ℚ) :
    (1 < battery_flow → battery_flow ≤ -need - 10 →
      classify battery_flow grid_flow need = Activity.CHARGE_LIMIT) ∧
    (1 < battery_flow → ¬battery_flow ≤ -need - 10 → battery_flow < -need + 5 →
      classify battery_flow grid_flow need = Activity.CHARGE_SOLAR_SURPLUS) ∧
    (1 < battery_flow → ¬battery_flow ≤ -need - 10 → ¬battery_flow < -need + 5 →
      classify battery_flow grid_flow need = Activity.CHARGE) ∧
    (battery_flow < -1 → -battery_flow ≤ need - 10 →
      classify battery_flow grid_flow need = Activity.DISCHARGE_LIMIT) ∧
    (battery_flow < -1 → ¬(-battery_flow ≤ need - 10) → -battery_flow ≤ need + 5 →
      classify battery_flow grid_flow need = Activity.DISCHARGE_FOR_HOME) ∧
    (battery_flow < -1 → ¬(-battery_flow ≤ need - 10) → ¬(-battery_flow ≤ need + 5) →
      classify battery_flow grid_flow need = Activity.DISCHARGE) ∧
    (|battery_flow| ≤ 1 → 0 < grid_flow →
      classify battery_flow grid_flow need = Activity.CHARGE_SOLAR_SURPLUS) ∧
    (|battery_flow| ≤ 1 → grid_flow < 0 →
      classify battery_flow grid_flow need = Activity.DISCHARGE_FOR_HOME) ∧
    (|battery_flow| ≤ 1 → grid_flow = 0 →
      classify battery_flow grid_flow need = Activity.CHARGE_LIMIT) := by
  refine ⟨?_, ?_, ?_, ?_, ?_, ?_, ?_, ?_, ?_⟩
  · intro h1 h2
    rw [classify, if_pos h1, if_pos h2]
  · intro h1 h2 h3
    rw [classify, if_pos h1, if_neg h2, if_pos h3]
  · intro h1 h2 h3
    rw [classify, if_pos h1, if_neg h2, if_neg h3]
  · intro h1 h2
    rw [classify, if_neg (by linarith), if_pos h1, if_pos h2]
  · intro h1 h2 h3
    rw [classify, if_neg (by linarith), if_pos h1, if_neg h2, if_pos h3]
  · intro h1 h2 h3
    rw [classify, if_neg (by linarith), if_pos h1, if_neg h2, if_neg h3]
  · intro h1 h2
    rw [abs_le] at h1
    rw [classify, if_neg (by linarith), if_neg (by linarith), if_pos h2]
  · intro h1 h2
    rw [abs_le] at h1
    rw [classify, if_neg (by linarith), if_neg (by linarith),
      if_neg (by linarith), if_pos h2]
  · intro h1 h2
    rw [abs_le] at h1
    rw [classify, if_neg (by linarith), if_neg (by linarith),
      if_neg (by linarith), if_neg (by simp [h2])]

/-- Witness for `c2_classifier_matches_table` at
`battery_flow = 5, grid_flow = 0, need = -20` (first table row). -/
theorem c2_classifier_matches_table_witness :
    (1 : ℚ) < 5 ∧ (5 : ℚ) ≤ -(-20) - 10 ∧
    classify 5 0 (-20) = Activity.CHARGE_LIMIT :=
  ⟨by norm_num, by norm_num,
    (c2_classifier_matches_table 5 0 (-20)).1 (by norm_num) (by norm_num)⟩

/-- C8 (counterexample): the spec's feature row contains a third lag and
day-of-week/hour cyclic features, but the column list handed to the regressor
(`prepare_features_for_prediction`) contains none of them — the code's
feature row is not the one the claim describes. -/
theorem c8_feature_row_differs :
    FeatureColumn.consumption_lag 3 ∈ spec_feature_columns ∧
    FeatureColumn.consumption_lag 3 ∉ feature_columns ∧
    FeatureColumn.day_of_week_sin ∈ spec_feature_columns ∧
    FeatureColumn.day_of_week_sin ∉ feature_columns ∧
    FeatureColumn.hour_sin ∈ spec_feature_columns ∧
    FeatureColumn.hour_sin ∉ feature_columns ∧
    FeatureColumn.minutes_of_day ∈ feature_columns := by
  decide

/-- C8 (amended): for every forecast slot, the feature row consists of
raw day-of-year, raw minute-of-day, minute-of-day sin/cos, two lags L1..L2
from the history buffer (most recent = L1), and the rolling mean/std of the
6-row window ending at the current placeholder row — i.e. the last five
buffered values together with the 0.0 placeholder, not the last six buffered
values. -/
theorem c8_feature_row_contents (O : TimeFeatureOracle) (sqrtF : ℚ → ℚ)
    (history : List ℚ) (t : ℕ) (h : 5 ≤ history.length) :
    ∃ f, features_at_last_row O sqrtF t (history ++ [0]) = some f ∧
      f.consumption_lag_1 = history.getD (history.length - 1) 0 ∧
      f.consumption_lag_2 = history.getD (history.length - 2) 0 ∧
      f.consumption_rolling_mean_6
        = (history.drop (history.length - 5)).sum / 6 ∧
      f.day_of_year = O.day_of_year t ∧
      f.minutes_of_day = ((t % 1440 : ℕ) : ℚ) ∧
      f.minutes_sin = O.minutes_sin (t % 1440) ∧
      f.minutes_cos = O.minutes_cos (t % 1440) := by
  have hlen : (history ++ [0]).length = history.length + 1 := by simp
  have hguard : ¬(history ++ [0]).length < 6 := by omega
  simp only [features_at_last_row, if_neg hguard]
  refine ⟨_, rfl, ?_, ?_, ?_, rfl, rfl, rfl, rfl⟩
  · show (history ++ [0]).getD ((history ++ [0]).length - 2) 0
        = history.getD (history.length - 1) 0
    rw [hlen]
    have h1 : history.length + 1 - 2 = history.length - 1 := by omega
    rw [h1, List.getD_append _ _ _ _ (by omega)]
  · show (history ++ [0]).getD ((history ++ [0]).length - 3) 0
        = history.getD (history.length - 2) 0
    rw [hlen]
    have h1 : history.length + 1 - 3 = history.length - 2 := by omega
    rw [h1, List.getD_append _ _ _ _ (by omega)]
  · show ((history ++ [0]).drop ((history ++ [0]).length - 6)).sum / 6
        = (history.drop (history.length - 5)).sum / 6
    rw [hlen]
    have h1 : history.length + 1 - 6 = history.length - 5 := by omega
    rw [h1, List.drop_append_eq_append_drop]
    simp

/-- Witness for `c8_feature_row_contents` at a 5-entry buffer: the lags are
the two most recent buffered values, the rolling mean covers the buffer plus
the zero placeholder. -/
theorem c8_feature_row_contents_witness :
    (features_at_last_row zeroTimeOracle (fun _ => 0) 0
        (([1, 2, 3, 4, 5] : List ℚ) ++ [0])).map
      (fun f => (f.consumption_lag_1, f.consumption_lag_2,
        f.consumption_rolling_mean_6))
      = some (5, 4, ([1, 2, 3, 4, 5] : List ℚ).sum / 6) := by
  obtain ⟨f, heq, hl1, hl2, hm, _⟩ :=
    c8_feature_row_contents zeroTimeOracle (fun _ => 0) [1, 2, 3, 4, 5] 0
      (by norm_num)
  rw [heq]
  show some (f.consumption_lag_1, f.consumption_lag_2,
    f.consumption_rolling_mean_6) = _
  rw [hl1, hl2, hm]
  norm_num [List.getD]

/-- C9 (counterexample): two invocations of `get_consumption_iterative` with
identical inputs and an identical (deterministic) model, but different values
drawn by `np.random.normal` while seeding the history buffer, produce
different forecasts — the pipeline is not a function of its inputs, model and
solver seed alone. -/
theorem c9_unseeded_noise_changes_output :
    get_consumption_iterative zeroTimeOracle (fun _ => 0) rollingMeanModel
        [0] 600 600 600 100 (fun _ => 0)
      ≠ get_consumption_iterative zeroTimeOracle (fun _ => 0) rollingMeanModel
        [0] 600 600 600 100 (fun _ => 12) := by
  have e1 : get_consumption_iterative zeroTimeOracle (fun _ => 0) rollingMeanModel
      [0] 600 600 600 100 (fun _ => 0) = [(0, 500)] := by
    unfold get_consumption_iterative seed_history gci_loop gci_step
      features_at_last_row rollingMeanModel
    norm_num [List.getD]
    simp [gci_loop]
  have e2 : get_consumption_iterative zeroTimeOracle (fun _ => 0) rollingMeanModel
      [0] 600 600 600 100 (fun _ => 12) = [(0, 1100)] := by
    unfold get_consumption_iterative seed_history gci_loop gci_step
      features_at_last_row rollingMeanModel
    norm_num [List.getD]
    simp [gci_loop]
  rw [e1, e2]
  simp

/-- C9 (amended): the forecast is a deterministic function of its inputs, the
model and the four values `np.random.normal` draws while seeding the history:
two runs whose draws agree produce identical output. -/
theorem c9_deterministic_given_draws (O : TimeFeatureOracle) (sqrtF : ℚ → ℚ)
    (model : ConsumptionFeatures → ℚ) (slots : List ℕ)
    (l1 l2 rm rs : ℚ) (noise1 noise2 : ℕ → ℚ)
    (h0 : noise1 0 = noise2 0) (h1 : noise1 1 = noise2 1)
    (h2 : noise1 2 = noise2 2) (h3 : noise1 3 = noise2 3) :
    get_consumption_iterative O sqrtF model slots l1 l2 rm rs noise1
      = get_consumption_iterative O sqrtF model slots l1 l2 rm rs noise2 := by
  unfold get_consumption_iterative seed_history
  rw [h0, h1, h2, h3]

/-- Witness for `c9_deterministic_given_draws` with two syntactically
different but pointwise-agreeing draw sequences. -/
theorem c9_deterministic_given_draws_witness :
    get_consumption_iterative zeroTimeOracle (fun _ => 0) rollingMeanModel
        [0] 600 600 600 100 (fun _ => 0)
      = get_consumption_iterative zeroTimeOracle (fun _ => 0) rollingMeanModel
        [0] 600 600 600 100 (fun k => 0 * k) :=
  c9_deterministic_given_draws zeroTimeOracle (fun _ => 0) rollingMeanModel
    [0] 600 600 600 100 (fun _ => 0) (fun k => 0 * k)
    (by norm_num) (by norm_num) (by norm_num) (by norm_num)

/-- C10 (confirmed): `Solver.create_schedule` returns `None` whenever the
production series is empty or the consumption series has a different number
of slots, and does so uniformly in the LP backend's answer — the solve is
never consulted. -/
theorem c10_input_validation (tlen : ℕ) (production consumption : List (ℕ × ℚ))
    (prices : ℕ → Elpris) (c : BatteryConfig) (solveResult : Option LPSolution)
    (h : production.length = 0 ∨ consumption.length ≠ production.length) :
    solver_create_schedule tlen production consumption prices c solveResult
        = none ∧
    ∀ other : Option LPSolution,
      solver_create_schedule tlen production consumption prices c solveResult
        = solver_create_schedule tlen production consumption prices c other := by
  constructor
  · unfold solver_create_schedule
    rw [if_pos h]
  · intro other
    unfold solver_create_schedule
    rw [if_pos h, if_pos h]

/-- Witness for `c10_input_validation`: a one-slot consumption series against
an empty production series is rejected without a solve. -/
theorem c10_input_validation_witness :
    (([] : List (ℕ × ℚ)).length = 0 ∨
      ([(0, (5 : ℚ))] : List (ℕ × ℚ)).length ≠ ([] : List (ℕ × ℚ)).length) ∧
    solver_create_schedule 5 [] [(0, 5)] (fun _ => elpris 0) testConfig
      (some zeroLPSolution) = none :=
  ⟨Or.inl rfl,
    (c10_input_validation 5 [] [(0, 5)] (fun _ => elpris 0) testConfig
      (some zeroLPSolution) (Or.inl rfl)).1⟩

/-- C5 (confirmed): whenever the fetched price map is non-empty, the mean
extension preserves every pre-existing entry, every entry it adds carries
`tariff(mean(spot_prices(P)))` computed over the original entries, and the
`|P| = 5` hourly-contiguous scenario yields exactly 29 hourly entries.
(`generate_schedule` invokes it exactly when `0 < |P| < 7`.) -/
theorem c5_price_extension :
    (∀ prices : List (ℕ × Elpris), prices ≠ [] →
      (∀ t p, List.lookup t prices = some p →
        List.lookup t (extend_prices_with_mean prices) = some p) ∧
      (∀ e ∈ extend_prices_with_mean prices,
        e ∈ prices ∨ e.2 = elpris (meanSpot prices)) ∧
      (∀ t p, List.lookup t prices = none →
        List.lookup t (extend_prices_with_mean prices) = some p →
        p = elpris (meanSpot prices))) ∧
    (extend_prices_with_mean c5Prices).length = 29 := by
  constructor
  · intro prices hne
    match prices, hne with
    | a :: l, _ =>
      have hext : extend_prices_with_mean (a :: l)
          = (extendTimes (latestTime (a :: l))).foldl
              (fillPrice (elpris (meanSpot (a :: l)))) (a :: l) := rfl
      refine ⟨?_, ?_, ?_⟩
      · intro t p hp
        rw [hext]
        exact foldl_fillPrice_lookup_preserved hp
      · intro e he
        rw [hext] at he
        exact foldl_fillPrice_entry_cases he
      · intro t p hn hp
        rw [hext] at hp
        have hmem := mem_of_lookup_eq_some hp
        rcases foldl_fillPrice_entry_cases hmem with h1 | h1
        · exact absurd hn (lookup_eq_none_of_not_mem h1)
        · exact h1
  · decide

/-- Witness for `c5_price_extension` on the concrete five-hour price map:
its first entry survives the extension unchanged. -/
theorem c5_price_extension_witness :
    c5Prices ≠ [] ∧
    List.lookup 0 (extend_prices_with_mean c5Prices) = some (elpris 1) :=
  ⟨by simp [c5Prices],
    ((c5_price_extension.1 c5Prices (by simp [c5Prices])).1) 0 (elpris 1) rfl⟩

/-- C6 (confirmed): in every feasible assignment of the solver's program —
with the `BoolVar` direction flags `grid_flow_direction` and
`is_charging_or_discharging` taking their declared 0/1 values — no slot has
battery charge and discharge simultaneously positive, nor grid import and
export simultaneously positive. -/
theorem c6_no_simultaneous_flows (tlen : ℕ) (c : BatteryConfig) (E0 : ℚ)
    (slots : List (ℚ × ℚ × SlotSolution))
    (hfeas : feasibleFrom tlen c E0 slots) :
    ∀ x ∈ slots,
      ¬(0 < x.2.2.battery_charge_wh ∧ 0 < x.2.2.battery_discharge_wh) ∧
      ¬(0 < x.2.2.grid_import_wh ∧ 0 < x.2.2.grid_export_wh) := by
  induction slots generalizing E0 with
  | nil => intro x hx; simp at hx
  | cons hd tl ih =>
    obtain ⟨prod, cons, s⟩ := hd
    simp only [feasibleFrom] at hfeas
    obtain ⟨hb, hc, hrest⟩ := hfeas
    intro x hx
    rcases List.mem_cons.1 hx with rfl | hx2
    · obtain ⟨himp0, _, hexp0, _, hdir, hchg0, _, hdis0, _, _, _, hm, _, _, _, _, _⟩ := hb
      obtain ⟨_, _, hchgm, hdism, _, _, himpd, hexpd⟩ := hc
      constructor
      · rintro ⟨hcpos, hdpos⟩
        rcases hm with hm0 | hm1
        · rw [hm0, mul_zero] at hchgm
          linarith
        · rw [hm1] at hdism
          have : toWh tlen c.max_discharge_speed_w * (1 - 1) = 0 := by ring
          rw [this] at hdism
          linarith
      · rintro ⟨hipos, hepos⟩
        rcases hdir with hd0 | hd1
        · rw [hd0, mul_zero] at hexpd
          linarith
        · rw [hd1] at himpd
          have : toWh tlen c.fuse_capacity_w * (1 - 1) = 0 := by ring
          rw [this] at himpd
          linarith
    · exact ih s.battery_energy_wh hrest x hx2

/-- Witness for `c6_no_simultaneous_flows`: a concrete idle one-slot feasible
assignment, for which neither exclusion is violated. -/
theorem c6_no_simultaneous_flows_witness :
    feasibleFrom 5 testConfig 5000 [(0, 0, c6Slot)] ∧
    ¬(0 < c6Slot.battery_charge_wh ∧ 0 < c6Slot.battery_discharge_wh) ∧
    ¬(0 < c6Slot.grid_import_wh ∧ 0 < c6Slot.grid_export_wh) := by
  have hfeas : feasibleFrom 5 testConfig 5000 [(0, 0, c6Slot)] := by
    simp only [feasibleFrom, slotVarBounds, slotConstraints, toWh, testConfig,
      c6Slot, BatteryConfig.evEnergyBound, BatteryConfig.evChargeBound]
    norm_num
  exact ⟨hfeas,
    c6_no_simultaneous_flows 5 testConfig 5000 [(0, 0, c6Slot)] hfeas
      (0, 0, c6Slot) (by simp)⟩

/-- C7 (counterexample): on the three-slot horizon `[0, 5, 10]` with the EV
ready at minute 5 (within the horizon) and `C_ev = 75000` Wh, the solver adds
a deficit targeting `0.9 · C_ev = 67500` Wh with the fixed penalty
coefficient `10.0` — not the full capacity `C_ev` the claim states (and not a
`p_ev_cap`-dependent coefficient: the routine takes no such input). -/
theorem c7_target_is_ninety_percent :
    setup_ev_charging_objectives [0, 5, 10] 5 75000 = some (5, 67500, 10) ∧
    (67500 : ℚ) ≠ 75000 := by
  constructor
  · norm_num [setup_ev_charging_objectives, List.find?]
  · norm_num

/-- C7 (amended): with a non-empty ascending slot list, when the ready time
is at or before the last slot the deficit is added at
`t* = min{t_i : t_i ≥ ev_ready_time}` with target `0.9 · C_ev` and penalty
coefficient `10.0`; when the ready time lies beyond the horizon the deficit is
added at the last slot with target `min(90, (elapsed/total)·90)%` of `C_ev`
and the same fixed penalty `10.0`. -/
theorem c7_ev_target (ts : List ℕ) (ready : ℕ) (cap : ℚ) (firstT lastT : ℕ)
    (hhead : ts.head? = some firstT) (hlast : ts.getLast? = some lastT)
    (hs : ts.Pairwise (· ≤ ·)) :
    (ready ≤ lastT →
      ∃ tstar, setup_ev_charging_objectives ts ready cap
          = some (tstar, (9/10) * cap, 10) ∧
        tstar ∈ ts ∧ ready ≤ tstar ∧ ∀ t ∈ ts, ready ≤ t → tstar ≤ t) ∧
    (lastT < ready →
      setup_ev_charging_objectives ts ready cap
        = some (lastT,
            min 90 (((lastT - firstT : ℕ) : ℚ) / 60
                / (((ready - firstT : ℕ) : ℚ) / 60) * 90) / 100 * cap,
            10)) := by
  obtain ⟨tl, rfl⟩ : ∃ tl, ts = firstT :: tl := by
    cases ts with
    | nil => simp at hhead
    | cons a tl =>
      have ha : a = firstT := by simpa using hhead
      exact ⟨tl, by rw [ha]⟩
  have hmem : lastT ∈ firstT :: tl := mem_of_getLast?_eq_some hlast
  have hfl : firstT ≤ lastT := by
    rcases List.mem_cons.1 hmem with rfl | h2
    · exact le_refl _
    · exact (List.pairwise_cons.1 hs).1 lastT h2
  unfold setup_ev_charging_objectives
  rw [show (firstT :: tl).head? = some firstT from rfl, hlast]
  dsimp only
  constructor
  · intro hr
    rw [if_pos hr]
    rcases hfind : (firstT :: tl).find? (fun t => ready ≤ t) with _ | x
    · exfalso
      rw [List.find?_eq_none] at hfind
      exact absurd (hfind lastT hmem) (by simp [hr])
    · refine ⟨x, rfl, ?_, ?_, ?_⟩
      · exact List.mem_of_find?_eq_some hfind
      · have := List.find?_some hfind
        simpa using this
      · intro t ht hrt
        exact sorted_find?_min hs hfind t ht hrt
  · intro hr
    rw [if_neg (by omega)]
    have h1 : 0 < ready - firstT := by omega
    have h2 : (0 : ℚ) < ((ready - firstT : ℕ) : ℚ) := by exact_mod_cast h1
    have htot : (0 : ℚ) < ((ready - firstT : ℕ) : ℚ) / 60 := by positivity
    rw [if_pos htot]

/-- Witness for `c7_ev_target` on the slots `[0, 5, 10]` with ready time 5:
the minimal qualifying slot is 5. -/
theorem c7_ev_target_witness :
    setup_ev_charging_objectives [0, 5, 10] 5 75000
      = some (5, (9/10) * 75000, 10) := by
  obtain ⟨tstar, heq, hmem, hge, hmin⟩ :=
    (c7_ev_target [0, 5, 10] 5 75000 0 10 rfl rfl (by decide)).1 (by norm_num)
  have h5 : tstar = 5 := le_antisymm (hmin 5 (by simp) (le_refl 5)) hge
  rw [h5] at heq
  exact heq

theorem roundHalfEven_intCast (n : ℤ) : roundHalfEven (n : ℚ) = n := by
  simp only [roundHalfEven, Int.floor_intCast, sub_self]
  norm_num

theorem round2_intCast_div (n : ℤ) : round2 ((n : ℚ) / 100) = (n : ℚ) / 100 := by
  simp only [round2]
  rw [show (100 : ℚ) * ((n : ℚ) / 100) = (n : ℚ) by field_simp, roundHalfEven_intCast]

theorem round2_zero : round2 0 = 0 := by
  have h := round2_intCast_div 0
  norm_num at h
  exact h

/-- C4 (amended): when the fetched price map is empty and the local hour is
at least 17, the orchestrator emits — without consulting the LP backend —
the 24-hour self-consumption schedule: 288 items, one per 5-minute slot, each
with zero battery flow, activity `SELF_CONSUMPTION`, battery SOC equal to the
(rounded) initial energy in every slot, and grid flow equal to the slot's
`production − consumption` (rounded) — not zero, as the claim states. -/
theorem c4_empty_prices_after_17 (start : ℕ) (prices : List (ℕ × Elpris))
    (consumption production : ℕ → ℚ) (c : BatteryConfig)
    (sol : Option LPSolution)
    (hp : prices = []) (hh : 17 ≤ start % 1440 / 60) :
    generate_schedule start prices consumption production c sol
        = some (create_self_consumption_schedule start consumption production
            c.initial_energy c.storage_size_wh) ∧
    (∀ sol2, generate_schedule start prices consumption production c sol
        = generate_schedule start prices consumption production c sol2) ∧
    (create_self_consumption_schedule start consumption production
        c.initial_energy c.storage_size_wh).length = 288 ∧
    (create_self_consumption_schedule start consumption production
        c.initial_energy c.storage_size_wh).map Prod.fst
      = selfConsumptionSlots start ∧
    ∀ e ∈ create_self_consumption_schedule start consumption production
        c.initial_energy c.storage_size_wh,
      e.2.battery_flow_wh = 0 ∧
      e.2.activity = Activity.SELF_CONSUMPTION ∧
      e.2.battery_expected_soc_wh = round2 c.initial_energy ∧
      e.2.grid_flow_wh = round2 (production e.1 - consumption e.1) ∧
      e.2.start_time = e.1 := by
  subst hp
  have hcond : ¬(start % 1440 / 60 < 17) := by omega
  have hzero : (([] : List (ℕ × Elpris)).length = 0) := rfl
  refine ⟨?_, ?_, ?_, ?_, ?_⟩
  · unfold generate_schedule
    rw [if_pos hzero, if_neg hcond]
  · intro sol2
    unfold generate_schedule
    rw [if_pos hzero, if_neg hcond, if_pos hzero]
  · unfold create_self_consumption_schedule
    rw [List.length_map]
    unfold selfConsumptionSlots
    rw [timeSlotsAux_length]
  · unfold create_self_consumption_schedule
    exact map_fst_pairing _ _
  · intro e he
    unfold create_self_consumption_schedule at he
    rcases List.mem_map.1 he with ⟨t, _, rfl⟩
    simp [mkTimeslotItem, round2_zero]

/-- Witness for `c4_empty_prices_after_17` at a concrete 18:00 start. -/
theorem c4_empty_prices_after_17_witness :
    ([] : List (ℕ × Elpris)) = [] ∧ 17 ≤ 1080 % 1440 / 60 ∧
    generate_schedule 1080 [] (fun _ => 500) (fun _ => 0) testConfig none
      = some (create_self_consumption_schedule 1080 (fun _ => 500) (fun _ => 0)
          testConfig.initial_energy testConfig.storage_size_wh) :=
  ⟨rfl, by norm_num,
    (c4_empty_prices_after_17 1080 [] (fun _ => 500) (fun _ => 0) testConfig none
      rfl (by norm_num)).1⟩

/-- C4 (counterexample): at an 18:00 start with empty prices, constant load
500 W and no production, the emitted self-consumption schedule's first slot
has `grid_flow_wh = -500 ≠ 0`, refuting the claim that both battery flow and
grid flow are zero in every slot. -/
theorem c4_grid_flow_not_zero :
    generate_schedule 1080 [] (fun _ => 500) (fun _ => 0) testConfig none
        = some (create_self_consumption_schedule 1080 (fun _ => 500)
            (fun _ => 0) testConfig.initial_energy testConfig.storage_size_wh) ∧
    ((create_self_consumption_schedule 1080 (fun _ => 500) (fun _ => 0)
        testConfig.initial_energy testConfig.storage_size_wh).map
      (fun e => (e.1, e.2.grid_flow_wh))).head? = some (1080, -500) ∧
    (-500 : ℚ) ≠ 0 := by
  refine ⟨rfl, ?_, by norm_num⟩
  have hr5 : round2 (-500 : ℚ) = -500 := by
    have h := round2_intCast_div (-50000)
    norm_num at h
    exact h
  unfold create_self_consumption_schedule
  rw [show selfConsumptionSlots 1080 = 1080 :: timeSlotsAux 1085 287 from rfl,
    List.map_cons, List.map_cons, List.head?_cons]
  simp only [mkTimeslotItem]
  norm_num [hr5]

/-- C3 (amended): for every planning run that reaches the solve step and
produces a schedule, the horizon end is `tN = max(keys(P))` — the *start* of
the last priced hour, not `max(keys(P)) + 1h − 5min` — and the schedule has a
`TimeslotItem` at every 5-minute boundary from the current slot up to and
including `tN`, with no gaps or duplicates (keys strictly increasing). -/
theorem c3_horizon_end (start : ℕ) (prices : List (ℕ × Elpris))
    (consumption production : ℕ → ℚ) (c : BatteryConfig)
    (sol : Option LPSolution) (sched : List (ℕ × TimeslotItem))
    (hne : prices ≠ [])
    (h : generate_schedule start prices consumption production c sol
      = some sched) :
    sched.map Prod.fst
        = timeSlots start (latestTime
            (if prices.length < 24 - 17 then extend_prices_with_mean prices
              else prices)) ∧
    (∀ t, t ∈ sched.map Prod.fst ↔
      ∃ k, t = start + 5 * k ∧
        t ≤ latestTime (if prices.length < 24 - 17
            then extend_prices_with_mean prices else prices)) ∧
    (sched.map Prod.fst).Pairwise (· < ·) := by
  have hlen : ¬prices.length = 0 := by
    simpa [List.length_eq_zero] using hne
  simp only [generate_schedule] at h
  rw [if_neg hlen] at h
  set P2 := if prices.length < 24 - 17 then extend_prices_with_mean prices
    else prices with hP2
  unfold solver_create_schedule at h
  split at h
  · exact absurd h (by simp)
  · rename_i hval
    cases sol with
    | none => exact absurd h (by simp)
    | some s =>
      have hsched : sched
          = ((timeSlots start (latestTime P2)).map
              (fun t => (t, production t))).map
            (fun p => (p.1, schedule_item 5
              (fun u => (List.lookup u ((timeSlots start
                (latestTime P2)).map (fun t => (t, consumption t)))).getD 0)
              (fun u => (List.lookup u ((timeSlots start
                (latestTime P2)).map (fun t => (t, production t)))).getD 0)
              (fun h => (List.lookup h P2).getD (elpris 0)) s c p.1)) := by
        injection h with h1
        exact h1.symm
      have hkeys : sched.map Prod.fst = timeSlots start (latestTime P2) := by
        rw [hsched, List.map_map, List.map_map]
        exact List.map_id _
      have hstart : start ≤ latestTime P2 := by
        by_contra hgt
        have hempty : timeSlots start (latestTime P2) = [] := by
          rw [timeSlots, if_neg hgt]
        push_neg at hval
        obtain ⟨h1, _⟩ := hval
        rw [List.length_map, hempty] at h1
        exact h1 rfl
      refine ⟨hkeys, ?_, ?_⟩
      · intro t
        rw [hkeys]
        exact timeSlots_mem hstart
      · rw [hkeys]
        exact timeSlots_sorted _ _

/-- Witness for `c3_horizon_end` on a concrete run: seven hourly prices from
17:00, start 17:30, schedule produced; its keys are the 5-minute boundaries
up to the last price key. -/
theorem c3_horizon_end_witness :
    c3Prices ≠ [] ∧
    generate_schedule 1050 c3Prices (fun _ => 0) (fun _ => 0) testConfig
        (some zeroLPSolution) = some c3Sched ∧
    c3Sched.map Prod.fst
      = timeSlots 1050 (latestTime
          (if c3Prices.length < 24 - 17 then extend_prices_with_mean c3Prices
            else c3Prices)) :=
  ⟨by simp [c3Prices], rfl,
    (c3_horizon_end 1050 c3Prices (fun _ => 0) (fun _ => 0) testConfig
      (some zeroLPSolution) c3Sched (by simp [c3Prices]) rfl).1⟩

/-- C3 (counterexample): with seven hourly prices whose last key is minute
1380 (22:00) and current slot 1050 (17:30), a schedule is produced, but it
has no item at minute 1385 — a 5-minute boundary after the current slot and
within the claim's horizon `max(keys(P)) + 1h − 5min = 1435` — refuting the
claimed horizon end; the last scheduled slot is `max(keys(P)) = 1380`. -/
theorem c3_no_slot_past_last_price_key :
    generate_schedule 1050 c3Prices (fun _ => 0) (fun _ => 0) testConfig
        (some zeroLPSolution) = some c3Sched ∧
    latestTime c3Prices = 1380 ∧
    List.lookup 1380 c3Sched ≠ none ∧
    List.lookup 1385 c3Sched = none ∧
    1050 ≤ 1385 ∧ 1385 % 5 = 0 ∧ 1385 ≤ 1380 + 60 - 5 := by
  refine ⟨rfl, ?_, ?_, ?_, by norm_num, by norm_num, by norm_num⟩
  · decide
  · decide
  · decide

end HaOpt
